import Mathlib

/-!
Shallow embedding of the hcai-mini decision core (src/app) over ℚ.

Python floats are idealised as rationals.  `round(x, 1)` is modelled by
`pyRound1` (round half to even on tenths, as documented for Python's
`round`), `int(x)` by `pyInt` (truncation toward zero).  Each definition
mirrors one function of the source; the source file and symbol are named
in its doc comment.
-/

namespace HcaiMini

/-- Python `round` to an integer: round half to even. -/
def rhe (q : ℚ) : ℤ :=
  if Int.fract q < 1/2 then ⌊q⌋
  else if 1/2 < Int.fract q then ⌊q⌋ + 1
  else if Even ⌊q⌋ then ⌊q⌋ else ⌊q⌋ + 1

/-- Python `round(x, 1)`: round to one decimal, half to even. -/
def pyRound1 (q : ℚ) : ℚ := (rhe (10 * q) : ℚ) / 10

/-- Python `int(x)`: truncation toward zero. -/
def pyInt (q : ℚ) : ℤ := if 0 ≤ q then ⌊q⌋ else ⌈q⌉

/-- One entry of the `limits` dict: `{min, max, max_delta_per_min}`. -/
structure FieldLimits where
  lmin : ℚ
  lmax : ℚ
  max_delta_per_min : ℚ
  deriving DecidableEq

/-- The `limits` dict passed to `Safety` and `MPCController`
(`api.py` passes the same literal to both). -/
structure SafetyLimits where
  temp_c : FieldLimits
  fan_rpm : FieldLimits
  deriving DecidableEq

/-- The `current` setpoint dict; `current.get(key)` may be absent. -/
structure Setpoints where
  supply_temp_c : Option ℚ
  fan_rpm : Option ℚ
  deriving DecidableEq

/-- The `proposed` dict, indexed with `proposed["supply_temp_c"]` /
`proposed["fan_rpm"]`, so both keys must be present. -/
structure Proposal where
  supply_temp_c : ℚ
  fan_rpm : ℚ
  deriving DecidableEq

/-- The dict returned by `Safety.enforce`: rounded temperature, integer
fan speed and the summary string. -/
structure EnforceResult where
  supply_temp_c : ℚ
  fan_rpm : ℤ
  safety_summary : String
  deriving DecidableEq

/-- Embeds `Safety._rate_limit(prev, new, max_delta)` (safety.py lines 8-15). -/
def rate_limit (prev : Option ℚ) (new : ℚ) (max_delta : ℚ) : ℚ :=
  match prev with
  | none => new
  | some p =>
      let delta := new - p
      if |delta| > max_delta then p + (if delta > 0 then max_delta else -max_delta)
      else new

/-- Embeds `Safety.enforce(current, proposed)` (safety.py lines 17-28). -/
def Safety.enforce (limits : SafetyLimits) (current : Setpoints)
    (proposed : Proposal) : EnforceResult :=
  let temp_limits := limits.temp_c
  let fan_limits := limits.fan_rpm
  let temp := max temp_limits.lmin (min temp_limits.lmax proposed.supply_temp_c)
  let fan := max fan_limits.lmin (min fan_limits.lmax proposed.fan_rpm)
  let temp := rate_limit current.supply_temp_c temp temp_limits.max_delta_per_min
  let fan := rate_limit current.fan_rpm fan fan_limits.max_delta_per_min
  { supply_temp_c := pyRound1 temp
    fan_rpm := pyInt fan
    safety_summary := "limits, rate limits applied" }

/-- The `clamp`-shaped expression `max lo (min hi x)` as it appears in
`Safety.enforce` and `mpc.clamp`. -/
def clampQ (lo hi x : ℚ) : ℚ := max lo (min hi x)

/-- The `limits` literal built in `api.py` (lines 42-45) and passed to
both `MPCController` and `Safety`. -/
def refLimits : SafetyLimits := ⟨⟨16, 27, 1⟩, ⟨800, 2200, 200⟩⟩

/-- Embeds `RollingWindow(size)`: a `deque(maxlen=size)` of floats. -/
structure RollingWindow where
  size : ℕ
  buf : List ℚ
  deriving DecidableEq

/-- Embeds `RollingWindow(size)` constructor: empty deque. -/
def RollingWindow.mk0 (size : ℕ) : RollingWindow := ⟨size, []⟩

/-- Embeds `RollingWindow.add(value)`: `deque.append` drops from the left when
the deque already holds `maxlen` elements. -/
def RollingWindow.add (w : RollingWindow) (value : ℚ) : RollingWindow :=
  { w with buf := (w.buf ++ [value]).drop (w.buf.length + 1 - w.size) }

/-- Embeds `RollingWindow.as_array()` (features.py lines 15-22): dense read,
left-padding a short buffer with its LAST element `arr[-1]`. -/
def RollingWindow.as_array (w : RollingWindow) : List ℚ :=
  if w.buf.isEmpty then List.replicate w.size 0
  else if w.buf.length < w.size then
    List.replicate (w.size - w.buf.length) (w.buf.getLastD 0) ++ w.buf
  else w.buf

/-- Embeds `FeatureStore(window)`: per-(rack, metric) rolling windows, created
lazily by `defaultdict` with size `window`. -/
structure FeatureStore where
  window : ℕ
  buffers : String → String → RollingWindow

/-- Embeds `FeatureStore(window)` constructor. -/
def FeatureStore.mk0 (window : ℕ) : FeatureStore :=
  ⟨window, fun _ _ => RollingWindow.mk0 window⟩

/-- Embeds `FeatureStore.push(rack, metric, value)`. -/
def FeatureStore.push (s : FeatureStore) (rack metric : String) (value : ℚ) :
    FeatureStore :=
  { s with buffers := fun r m =>
      if r = rack ∧ m = metric then (s.buffers rack metric).add value
      else s.buffers r m }

/-- Embeds `FeatureStore.get_window(rack, metric)`. -/
def FeatureStore.get_window (s : FeatureStore) (rack metric : String) : List ℚ :=
  (s.buffers rack metric).as_array

/-- Fold a sequence of `(rack, metric, value)` pushes into a store. -/
def FeatureStore.pushSeq (s : FeatureStore) (ops : List (String × String × ℚ)) :
    FeatureStore :=
  ops.foldl (fun st o => st.push o.1 o.2.1 o.2.2) s

/-- Fold a list of values into a rolling window. -/
def RollingWindow.addAll (w : RollingWindow) (vs : List ℚ) : RollingWindow :=
  vs.foldl RollingWindow.add w

/-- Embeds `Forecaster.predict(series)` (forecaster.py lines 10-20), with the
horizon fixed at construction.  `0.5` and `0.8` are the literals of the
source. -/
def Forecaster.predict (horizon : ℕ) (series0 : List ℚ) :
    List ℚ × List ℚ × List ℚ :=
  let series := if series0.length = 0 then List.replicate 10 (0 : ℚ) else series0
  let trend_window : ℕ := if series.length > 1 then min 10 (series.length - 1) else 1
  let trend : ℚ :=
    if trend_window > 0 then
      if series.length > trend_window + 1 then
        (series.getLastD 0 - series.getD (series.length - (trend_window + 1)) 0) /
          (trend_window : ℚ)
      else 0
    else 0
  let preds := (List.range horizon).map
    (fun i : ℕ => series.getLastD 0 + ((i : ℚ) + 1) * trend * (1/2))
  let lo := preds.map (fun p => p - 8/10)
  let hi := preds.map (fun p => p + 8/10)
  (preds, lo, hi)

/-- Embeds `VAEAnomaly.score(window_vec)` with the threshold fixed at
construction. -/
def VAEAnomaly.score (threshold : ℚ) (window_vec : List ℚ) : ℚ × Bool :=
  if window_vec.length = 0 then (0, false)
  else
    let err := (window_vec.getLastD 0 - window_vec.sum / (window_vec.length : ℚ))^2
    let score := 1 / (1 + err)
    (score, decide (score ≥ threshold))

/-- Embeds `mpc.clamp(value, lo, hi)`. -/
def mpcClamp (value lo hi : ℚ) : ℚ := max lo (min hi value)

/-- Embeds `MPCController.propose(forecast_temp, current_set)` (mpc.py lines
13-23) with the construction-time limits; `weights` is stored but unused
by `propose`. -/
def MPCController.propose (limits : SafetyLimits) (forecast_temp : List ℚ)
    (current_set : Setpoints) : Proposal :=
  let lookahead := if forecast_temp.length ≠ 0 then min 5 (forecast_temp.length - 1) else 0
  let error := if forecast_temp.length ≠ 0 then forecast_temp.getD lookahead 0 - 23 else 0
  let fan := current_set.fan_rpm.getD 1200
  let supply := current_set.supply_temp_c.getD 18
  let delta_fan : ℚ := if error > 0 then 150 else -100
  let delta_temp : ℚ := if error > 0 then -3/10 else 2/10
  let new_fan := mpcClamp (fan + delta_fan) limits.fan_rpm.lmin limits.fan_rpm.lmax
  let new_supply := mpcClamp (supply + delta_temp) limits.temp_c.lmin limits.temp_c.lmax
  ⟨pyRound1 new_supply, ((pyInt new_fan : ℤ) : ℚ)⟩

/-- The `metrics` sub-dict of a telemetry message; any entry may be
null (sensor dropout). -/
structure TeleMetrics where
  temp_c : Option ℚ
  hum_pct : Option ℚ
  power_kw : Option ℚ
  airflow_cfm : Option ℚ
  deriving DecidableEq

/-- Embeds `policy["humidity"]` entries, read with defaults -999 / 999. -/
structure HumidityLimits where
  hmin : Option ℚ
  hmax : Option ℚ
  deriving DecidableEq

/-- The policy YAML as used by the engine.  `humidity = none` models a
missing or empty (falsy) `humidity` dict. -/
structure Policy where
  site : Option String
  limits : SafetyLimits
  power_alarm_kw : Option ℚ
  humidity : Option HumidityLimits
  deriving DecidableEq

/-- A decoded JSON bus payload: one structure holding every field any
`handle_message` branch reads; absent keys are `none` / `[]`.  Entries of
`raw` and `devices` are kept opaque as strings. -/
structure BusPayload where
  ts : Option String
  site : Option String
  rack : Option String
  device_id : Option String
  metrics : TeleMetrics
  status : Option String
  applied : List (String × ℚ)
  latency_ms : Option ℚ
  notes : Option String
  raw : List String
  devices : List String
  duration_s : Option ℚ
  deriving DecidableEq

/-- A payload with every key absent. -/
def BusPayload.empty : BusPayload :=
  ⟨none, none, none, none, ⟨none, none, none, none⟩, none, [], none, none, [], [], none⟩

/-- The `explain` dict built by `DecisionEngine._explain_action`. -/
structure Explain where
  rack : String
  forecast_temp : Option ℚ
  risk_score : ℚ
  triggers : List String
  message : String
  deriving DecidableEq

/-- Decimal formatting of floats inside explain messages is idealised as
the rational's `toString`. -/
def qstr (q : ℚ) : String := toString q

/-- Embeds `DecisionEngine._explain_action` (decisions.py lines 328-344). -/
def explain_action (rack : String) (forecast : List ℚ) (anomaly_score : ℚ)
    (triggers : List String) : Explain :=
  let next_temp := forecast.head?
  let trigger_msg := if triggers.isEmpty then "policy"
    else String.intercalate ", " triggers
  let temp_text := match next_temp with
    | some t => qstr t ++ "C"
    | none => "n/a"
  ⟨rack, next_temp, anomaly_score, triggers,
    "Triggers: " ++ trigger_msg ++ ". Forecast " ++ temp_text ++ ", risk "
      ++ qstr anomaly_score ++ "."⟩

/-- The `action_payload` dict (decisions.py lines 209-220); `set` holds
the two enforced setpoints. -/
structure ActionPayload where
  ts : String
  device_id : String
  cmd : String
  set_supply_temp_c : ℚ
  set_fan_rpm : ℤ
  mode : String
  reason : String
  ticket : String
  constraints : SafetyLimits
  safety_summary : String
  explain : Explain
  deriving DecidableEq

/-- A `telemetry` table row (db.py schema); `raw` is the whole message. -/
structure TelemetryRow where
  ts : Option String
  site : Option String
  rack : String
  temp_c : Option ℚ
  hum_pct : Option ℚ
  power_kw : Option ℚ
  airflow_cfm : Option ℚ
  raw : BusPayload
  deriving DecidableEq

/-- A `forecasts` table row. -/
structure ForecastRow where
  ts : String
  horizon_s : ℕ
  rack : String
  temp_pred : Option ℚ
  temp_lo : Option ℚ
  temp_hi : Option ℚ
  power_pred : Option ℚ
  deriving DecidableEq

/-- An `anomalies` table row. -/
structure AnomalyRow where
  ts : String
  rack : String
  score : ℚ
  threshold : ℚ
  is_alarm : ℕ
  deriving DecidableEq

/-- An `actions` table row; `cmd_json` keeps the decoded payload. -/
structure ActionRow where
  id : ℕ
  ts : String
  device_id : String
  cmd_json : ActionPayload
  mode : String
  status : String
  reason : String
  model_version : String
  safety_summary : String
  deriving DecidableEq

/-- A `receipts` table row, persisted verbatim from the message. -/
structure ReceiptRow where
  ts : Option String
  device_id : Option String
  status : Option String
  applied_json : List (String × ℚ)
  latency_ms : Option ℚ
  notes : Option String
  deriving DecidableEq

/-- An `audits` table row (storage/audit.py). -/
structure AuditRow where
  ts : String
  actor : String
  action : String
  payload : BusPayload
  deriving DecidableEq

/-- The SQLite state: one list per table plus the actions autoincrement
counter (`lastrowid`). -/
structure DBState where
  telemetry : List TelemetryRow
  forecasts : List ForecastRow
  anomalies : List AnomalyRow
  actions : List ActionRow
  receipts : List ReceiptRow
  audits : List AuditRow
  next_id : ℕ
  deriving DecidableEq

/-- Embeds `DB.record_action` (db.py lines 131-143): insert and return
`lastrowid`. -/
def DBState.record_action (db : DBState) (ts device_id : String)
    (cmd_json : ActionPayload) (mode status reason model_version
    safety_summary : String) : ℕ × DBState :=
  (db.next_id,
    { db with
        actions := db.actions ++
          [⟨db.next_id, ts, device_id, cmd_json, mode, status, reason,
            model_version, safety_summary⟩]
        next_id := db.next_id + 1 })

/-- Embeds `DB.update_action_status` (db.py lines 99-104). -/
def DBState.update_action_status (db : DBState) (action_id : ℕ)
    (status : String) : DBState :=
  { db with
      actions := db.actions.map
        (fun a => if a.id = action_id then { a with status := status } else a) }

/-- Embeds `DB.record_receipt` (db.py lines 145-149): plain insert into
`receipts`. -/
def DBState.record_receipt (db : DBState) (r : ReceiptRow) : DBState :=
  { db with receipts := db.receipts ++ [r] }

/-- The discovery state dict. -/
structure DiscoveryState where
  status : String
  message : String
  started_at : Option String
  completed_at : Option String
  error : Option String
  deriving DecidableEq

/-- Embeds `DecisionEngine` state.  `horizon`, `threshold` and `limits` are the
construction parameters of the forecaster, the anomaly scorer and the
MPC/Safety pair (api.py lines 39-51).  `published` accumulates bus
publishes of action payloads.  Wall-clock reads (`datetime.now`) are an
explicit `now` argument of each handler. -/
structure Engine where
  db : DBState
  feature_store : FeatureStore
  policy : Policy
  mode : String
  auto_enabled : Bool
  horizon : ℕ
  threshold : ℚ
  limits : SafetyLimits
  latest_tiles : String → Option (Option String × TeleMetrics)
  discovery_results : List String
  discovery_state : DiscoveryState
  discovery_deadline : Option String
  discovery_history : List (Option String × ℕ)
  ingest_count : ℕ
  last_ingest_ts : Option String
  dynamic_devices : String → Option String
  rack_device_map : String → Option String
  published : List (String × ActionPayload)

/-- Python `str.startswith`, over the underlying character list. -/
def pyStartswith (s p : String) : Bool := p.data.isPrefixOf s.data

/-- Python `str.endswith`, over the underlying character list. -/
def pyEndswith (s p : String) : Bool := p.data.reverse.isPrefixOf s.data.reverse

/-- Embeds `DecisionEngine._device_for_rack` (decisions.py lines 363-372); the
YAML registry reload on file-mtime change touches the filesystem, so the
registry map is modelled as fixed engine state. -/
def Engine.device_for_rack (e : Engine) (rack : String) : Option String :=
  match e.dynamic_devices rack with
  | some d => some d
  | none => e.rack_device_map rack

/-- The trigger accumulation of `DecisionEngine._maybe_act`
(decisions.py lines 166-190), in source order: vae, temp_limit,
forecast, temp_trend, power_spike, humidity. -/
def compute_triggers (policy : Policy) (window preds : List ℚ) (alarm : Bool)
    (metrics : TeleMetrics) : List String :=
  let temp_limit := policy.limits.temp_c.lmax
  let forecast_target : Option ℚ :=
    if preds.length ≠ 0 then
      some (preds.getD (if preds.length > 5 then 5 else 0) 0)
    else none
  let t1 : List String := if alarm then ["vae"] else []
  let t2 : List String := match metrics.temp_c with
    | some t => if t ≥ temp_limit then ["temp_limit"] else []
    | none => []
  let t3 : List String := match forecast_target with
    | some f => if f ≥ temp_limit then ["forecast"] else []
    | none => []
  let t4 : List String :=
    if window.length ≥ 6 ∧
        window.getLastD 0 - window.getD (window.length - 6) 0 ≥ 8/10 then
      ["temp_trend"]
    else []
  let t5 : List String := match metrics.power_kw with
    | some p => if p ≥ policy.power_alarm_kw.getD (11/2) then ["power_spike"] else []
    | none => []
  let t6 : List String := match metrics.hum_pct, policy.humidity with
    | some h, some hl =>
        if h < hl.hmin.getD (-999) ∨ h > hl.hmax.getD 999 then ["humidity"] else []
    | _, _ => []
  t1 ++ t2 ++ t3 ++ t4 ++ t5 ++ t6

/-- The `reason` selection chain of `DecisionEngine._maybe_act`
(decisions.py lines 198-208): default `forecast_risk_high`, then the
if/elif ladder. -/
def pick_reason (triggers : List String) : String :=
  if "temp_limit" ∈ triggers then "temperature_limit"
  else if "temp_trend" ∈ triggers then "temperature_trend"
  else if "power_spike" ∈ triggers then "power_spike"
  else if "humidity" ∈ triggers then "humidity_out_of_range"
  else if "vae" ∈ triggers then "anomaly"
  else "forecast_risk_high"

/-- Embeds `DecisionEngine._maybe_act` (decisions.py lines 140-241). -/
def Engine.maybe_act (e : Engine) (now : String) (rack : String)
    (metrics : TeleMetrics) : Engine :=
  let window := e.feature_store.get_window rack "temp_c"
  let pr := Forecaster.predict e.horizon window
  let preds := pr.1
  let lo := pr.2.1
  let hi := pr.2.2
  let sc := VAEAnomaly.score e.threshold window
  let score := sc.1
  let alarm := sc.2
  let frow : ForecastRow := ⟨now, 60, rack, preds.head?, lo.head?, hi.head?, none⟩
  let arow : AnomalyRow := ⟨now, rack, score, e.threshold, if alarm then 1 else 0⟩
  let db1 : DBState := { e.db with forecasts := e.db.forecasts ++ [frow] }
  let db2 : DBState := { db1 with anomalies := db1.anomalies ++ [arow] }
  let triggers := compute_triggers e.policy window preds alarm metrics
  if triggers.isEmpty then { e with db := db2 }
  else
    let current : Setpoints := ⟨some 18, some 1200⟩
    let proposal := MPCController.propose e.limits preds current
    let safe := Safety.enforce e.limits current proposal
    let explanation := explain_action rack preds score triggers
    let device_id := match e.device_for_rack rack with
      | some d => if d = "" then e.policy.site.getD "device" else d
      | none => e.policy.site.getD "device"
    let reason := pick_reason triggers
    let payload : ActionPayload :=
      ⟨now, device_id, "setpoints", safe.supply_temp_c, safe.fan_rpm, e.mode,
        reason, "HCAI-BOOTSTRAP", e.policy.limits, safe.safety_summary,
        explanation⟩
    let status := if ¬ e.auto_enabled then "pending_manual" else "queued"
    let ra := db2.record_action now device_id payload e.mode status reason
      "bootstrap" safe.safety_summary
    if e.auto_enabled ∧ pyStartswith e.mode "auto" then
      { e with
          db := ra.2.update_action_status ra.1 "sent"
          published := e.published ++ [("ctrl/" ++ device_id ++ "/set", payload)] }
    else
      { e with
          db := ra.2.update_action_status ra.1 "pending_manual"
          published := e.published ++ [("ctrl/proposals", payload)] }

/-- Embeds `DecisionEngine._handle_telemetry` (decisions.py lines 109-138). -/
def Engine.handle_telemetry (e : Engine) (now : String) (data : BusPayload) :
    Engine :=
  let rack := data.rack.getD "unknown"
  let metrics := data.metrics
  let e1 := match data.device_id with
    | some d =>
        if d ≠ "" ∧ rack ≠ "" then
          { e with dynamic_devices := fun r =>
              if r = rack then some d else e.dynamic_devices r }
        else e
    | none => e
  let e2 := match metrics.temp_c with
    | some t => { e1 with feature_store := e1.feature_store.push rack "temp_c" t }
    | none => e1
  let trow : TelemetryRow :=
    ⟨data.ts, data.site, rack, metrics.temp_c, metrics.hum_pct,
      metrics.power_kw, metrics.airflow_cfm, data⟩
  let e3 := { e2 with db := { e2.db with telemetry := e2.db.telemetry ++ [trow] } }
  let e4 := { e3 with latest_tiles := fun r =>
    if r = rack then some (data.ts, metrics) else e3.latest_tiles r }
  let e5 := e4.maybe_act now rack metrics
  { e5 with ingest_count := e5.ingest_count + 1, last_ingest_ts := data.ts }

/-- Embeds `DecisionEngine.handle_message` (decisions.py lines 65-107); the
Prometheus counter updates of the `discover/results` branch are process
metrics outside this state model, and `_reload_devices` on
`discover/approved|removed` re-reads the registry file, modelled as
unchanged. -/
def Engine.handle_message (e : Engine) (now : String) (topic : String)
    (data : BusPayload) : Engine :=
  if pyStartswith topic "site/" then e.handle_telemetry now data
  else if pyStartswith topic "ctrl/" ∧ pyEndswith topic "/receipt" then
    let rrow : ReceiptRow :=
      ⟨data.ts, data.device_id, data.status, data.applied, data.latency_ms,
        data.notes⟩
    { e with db := e.db.record_receipt rrow }
  else if topic = "discover/raw" then
    let h := e.discovery_history ++ [(data.ts, data.raw.length)]
    { e with discovery_history := h.drop (h.length - 50) }
  else if topic = "discover/results" then
    let count := data.devices.length
    { e with
        discovery_results := data.devices
        discovery_state :=
          ⟨"done",
            if count ≠ 0 then "Found " ++ toString count ++ " device(s)"
            else "No devices discovered",
            e.discovery_state.started_at, some now, none⟩
        db := { e.db with audits := e.db.audits ++
          [⟨now, "system", "discover_results", data⟩] }
        discovery_deadline := none }
  else if topic = "discover/approved" ∨ topic = "discover/removed" then e
  else e

/-- Embeds `DecisionEngine.approve_action` (decisions.py lines 318-326). -/
def Engine.approve_action (e : Engine) (action_id : ℕ) : Bool × Engine :=
  match e.db.actions.find? (fun a => a.id = action_id) with
  | none => (false, e)
  | some action =>
      (true,
        { e with
            published := e.published ++
              [("ctrl/" ++ action.cmd_json.device_id ++ "/set", action.cmd_json)]
            db := e.db.update_action_status action_id "sent" })

/-- A reference policy: the spec's §4.4 limits, with no humidity section
and no `power_alarm_kw` override (default 5.5 applies). -/
def refPolicy : Policy := ⟨some "site-a", refLimits, none, none⟩

/-- A freshly constructed engine (small window/horizon parameters;
claims quantify over engine states). -/
def engine0 : Engine where
  db := ⟨[], [], [], [], [], [], 1⟩
  feature_store := FeatureStore.mk0 6
  policy := refPolicy
  mode := "propose"
  auto_enabled := true
  horizon := 8
  threshold := 97/100
  limits := refLimits
  latest_tiles := fun _ => none
  discovery_results := []
  discovery_state := ⟨"idle", "Idle", none, none, none⟩
  discovery_deadline := none
  discovery_history := []
  ingest_count := 0
  last_ingest_ts := none
  dynamic_devices := fun _ => none
  rack_device_map := fun _ => none
  published := []

/-- A `discover/results` message with one raw entry and one device. -/
def resultsMsg0 : BusPayload :=
  { BusPayload.empty with
    ts := some "t0"
    raw := ["x"]
    devices := ["d1"]
    duration_s := some (21/5) }

/-- The explain dict of a pre-stored action used in fixtures. -/
def explain0 : Explain := ⟨"r1", none, 0, [], "m"⟩

/-- A stored action payload for device `dev1` at ts `T0`. -/
def payload0 : ActionPayload :=
  ⟨"T0", "dev1", "setpoints", 18, 1200, "propose", "temperature_limit",
    "HCAI-BOOTSTRAP", refLimits, "limits, rate limits applied", explain0⟩

/-- A stored `actions` row for device `dev1` at ts `T0`, status `sent`. -/
def actionRow0 : ActionRow :=
  ⟨1, "T0", "dev1", payload0, "propose", "sent", "temperature_limit",
    "bootstrap", "limits, rate limits applied"⟩

/-- A receipt message from `dev1` carrying the exactly matching ts `T0`. -/
def receiptMsg0 : BusPayload :=
  { BusPayload.empty with
    ts := some "T0"
    device_id := some "dev1"
    status := some "ok" }

/-- An engine holding exactly the one action `actionRow0`. -/
def receiptCexEngine : Engine :=
  { engine0 with db := { engine0.db with actions := [actionRow0], next_id := 2 } }

/-- The trigger list `_maybe_act` computes for a rack and metrics dict:
same window, forecast and anomaly inputs as decisions.py lines 141-143
and 166-190. -/
def triggers_for (e : Engine) (rack : String) (metrics : TeleMetrics) :
    List String :=
  compute_triggers e.policy (e.feature_store.get_window rack "temp_c")
    (Forecaster.predict e.horizon (e.feature_store.get_window rack "temp_c")).1
    (VAEAnomaly.score e.threshold (e.feature_store.get_window rack "temp_c")).2
    metrics

/-- Modelled from the spec's trigger priority table (§4.5), with the
order amended so that `anomaly` precedes `forecast_risk_high`: the reason
is the first firing trigger in the order temperature_limit,
temperature_trend, power_spike, humidity_out_of_range, anomaly,
forecast_risk_high. -/
def spec_priority_first (triggers : List String) : String :=
  if "temp_limit" ∈ triggers then "temperature_limit"
  else if "temp_trend" ∈ triggers then "temperature_trend"
  else if "power_spike" ∈ triggers then "power_spike"
  else if "humidity" ∈ triggers then "humidity_out_of_range"
  else if "vae" ∈ triggers then "anomaly"
  else if "forecast" ∈ triggers then "forecast_risk_high"
  else "no_trigger"

/-- A telemetry message for rack `r1` with `temp_c = 28` (above the 27
limit). -/
def teleMsg1 : BusPayload :=
  { BusPayload.empty with
    ts := some "T1"
    site := some "s1"
    rack := some "r1"
    metrics := ⟨some 28, none, none, none⟩ }

/-- A telemetry message for rack `r1` with every metric null (sensor
dropout). -/
def teleMsg2 : BusPayload :=
  { BusPayload.empty with
    ts := some "T2"
    site := some "s1"
    rack := some "r1"
    metrics := ⟨none, none, none, none⟩ }

/-- The engine after ingesting `teleMsg1`. -/
def engine1 : Engine := engine0.handle_telemetry "T1" teleMsg1

/-- The engine after ingesting `teleMsg1` then the dropout `teleMsg2`. -/
def engine2 : Engine := engine1.handle_telemetry "T2" teleMsg2

theorem rhe_le (q : ℚ) : rhe q ≤ ⌊q⌋ + 1 := by
  unfold rhe; split_ifs <;> omega

theorem le_rhe (q : ℚ) : ⌊q⌋ ≤ rhe q := by
  unfold rhe; split_ifs <;> omega

theorem rhe_mono : Monotone rhe := by
  intro x y h
  rcases lt_or_le ⌊x⌋ ⌊y⌋ with hf | hf
  · calc rhe x ≤ ⌊x⌋ + 1 := rhe_le x
    _ ≤ ⌊y⌋ := by omega
    _ ≤ rhe y := le_rhe y
  · have hfe : ⌊x⌋ = ⌊y⌋ := le_antisymm (Int.floor_mono h) hf
    have hfr : Int.fract x ≤ Int.fract y := by
      unfold Int.fract
      rw [hfe]
      exact sub_le_sub_right h _
    unfold rhe
    rw [hfe]
    split_ifs <;> first | omega | linarith

theorem rhe_intCast (k : ℤ) : rhe (k : ℚ) = k := by
  unfold rhe
  rw [Int.fract_intCast, Int.floor_intCast]
  norm_num

theorem rhe_sub_le (q : ℚ) : |(rhe q : ℚ) - q| ≤ 1/2 := by
  have h0 := Int.fract_nonneg q
  have h1 := Int.fract_lt_one q
  have hq : q = (⌊q⌋ : ℚ) + Int.fract q := by
    unfold Int.fract; ring
  unfold rhe
  split_ifs with hlt hgt heven <;>
    rw [abs_le] <;> constructor <;> (try push_cast) <;> linarith

theorem pyRound1_mono : Monotone pyRound1 := by
  intro x y h
  unfold pyRound1
  have : rhe (10 * x) ≤ rhe (10 * y) := rhe_mono (by linarith)
  have hc : ((rhe (10 * x) : ℤ) : ℚ) ≤ ((rhe (10 * y) : ℤ) : ℚ) := by
    exact_mod_cast this
  linarith

theorem pyRound1_idem (q : ℚ) : pyRound1 (pyRound1 q) = pyRound1 q := by
  unfold pyRound1
  have h : (10 : ℚ) * ((rhe (10 * q) : ℚ) / 10) = (rhe (10 * q) : ℚ) := by ring
  rw [h, rhe_intCast]

theorem pyRound1_sub_le (q : ℚ) : |pyRound1 q - q| ≤ 1/20 := by
  unfold pyRound1
  have h := rhe_sub_le (10 * q)
  rw [abs_le] at h ⊢
  constructor <;> [linarith [h.1]; linarith [h.2]]

theorem pyInt_mono : Monotone (fun q : ℚ => (pyInt q : ℚ)) := by
  intro x y h
  simp only [pyInt]
  split_ifs with hx hy hy
  · exact_mod_cast Int.floor_mono h
  · linarith
  · have h1 : ((⌈x⌉ : ℤ) : ℚ) ≤ x + 1 := by
      have := Int.ceil_lt_add_one x
      linarith
    have h2 : (0:ℚ) ≤ (⌊y⌋ : ℚ) := by
      exact_mod_cast Int.floor_nonneg.mpr hy
    have h3 : ((⌈x⌉ : ℤ) : ℚ) ≤ 0 := by
      have hx0 : x ≤ ((0 : ℤ) : ℚ) := by push_cast; linarith [lt_of_not_le hx]
      have : ⌈x⌉ ≤ (0 : ℤ) := Int.ceil_le.mpr hx0
      exact_mod_cast this
    linarith
  · exact_mod_cast Int.ceil_mono h

theorem pyInt_intCast (k : ℤ) : pyInt (k : ℚ) = k := by
  unfold pyInt
  split_ifs <;> simp

theorem pyInt_near (q : ℚ) : q - 1 < (pyInt q : ℚ) ∧ (pyInt q : ℚ) < q + 1 := by
  unfold pyInt
  split_ifs with h
  · constructor
    · have := Int.sub_one_lt_floor q; linarith
    · have := Int.floor_le q; linarith
  · constructor
    · have := Int.le_ceil q; linarith
    · have := Int.ceil_lt_add_one q; linarith

theorem clampQ_mem (lo hi : ℚ) (h : lo ≤ hi) (x : ℚ) :
    lo ≤ clampQ lo hi x ∧ clampQ lo hi x ≤ hi := by
  refine ⟨le_max_left _ _, max_le h (min_le_left _ _)⟩

theorem clampQ_mono (lo hi : ℚ) : Monotone (clampQ lo hi) := by
  intro a b hab
  exact max_le_max le_rfl (min_le_min le_rfl hab)

theorem clampQ_between (lo hi s r : ℚ) (h1 : lo ≤ s) (h2 : s ≤ hi) :
    min s r ≤ clampQ lo hi r ∧ clampQ lo hi r ≤ max s r := by
  unfold clampQ
  rcases le_total hi r with hr | hr
  · rw [min_eq_left hr, max_eq_right (h1.trans h2)]
    exact ⟨le_trans (min_le_left s r) h2, le_trans hr (le_max_right s r)⟩
  · rw [min_eq_right hr]
    rcases le_total r lo with hrl | hrl
    · rw [max_eq_left hrl]
      exact ⟨le_trans (min_le_right s r) hrl, le_trans h1 (le_max_left s r)⟩
    · rw [max_eq_right hrl]
      exact ⟨min_le_right s r, le_max_right s r⟩

theorem clampQ_const (m M : ℚ) (h : M < m) (x : ℚ) : clampQ m M x = m := by
  unfold clampQ
  exact max_eq_left (le_of_lt (lt_of_le_of_lt (min_le_left M x) h))

/-- Single clamp: the image of `r` stays between `r` and any value the
clamp has already produced. -/
theorem clamp1_between (m M p r : ℚ) :
    min (clampQ m M p) r ≤ clampQ m M r ∧ clampQ m M r ≤ max (clampQ m M p) r := by
  rcases le_or_lt m M with hmM | hmM
  · have hp := clampQ_mem m M hmM p
    exact clampQ_between m M (clampQ m M p) r hp.1 hp.2
  · rw [clampQ_const m M hmM p, clampQ_const m M hmM r]
    exact ⟨min_le_left _ _, le_max_left _ _⟩

/-- Composed clamp (absolute limits then rate band): same betweenness. -/
theorem clamp2_between (m M lo hi : ℚ) (hlohi : lo ≤ hi) (p r : ℚ) :
    min (clampQ lo hi (clampQ m M p)) r ≤ clampQ lo hi (clampQ m M r) ∧
      clampQ lo hi (clampQ m M r) ≤ max (clampQ lo hi (clampQ m M p)) r := by
  rcases le_or_lt m M with hmM | hmM
  · have hu := clampQ_mem m M hmM p
    have hw := clampQ_between m M (clampQ m M p) r hu.1 hu.2
    have hy := clampQ_mem lo hi hlohi (clampQ m M p)
    have hmono := clampQ_mono lo hi
    have hlow : clampQ lo hi (min (clampQ m M p) r) ≤ clampQ lo hi (clampQ m M r) :=
      hmono hw.1
    have hhigh : clampQ lo hi (clampQ m M r) ≤ clampQ lo hi (max (clampQ m M p) r) :=
      hmono hw.2
    rw [hmono.map_min] at hlow
    rw [hmono.map_max] at hhigh
    have hv := clampQ_between lo hi (clampQ lo hi (clampQ m M p)) r hy.1 hy.2
    constructor
    · exact le_trans (le_min (min_le_left _ _) hv.1) hlow
    · exact le_trans hhigh (max_le (le_max_left _ _) hv.2)
  · rw [clampQ_const m M hmM p, clampQ_const m M hmM r]
    exact ⟨min_le_left _ _, le_max_left _ _⟩

/-- A monotone rounding `R` with `R ∘ R = R`, applied after a map `g`
with the betweenness property, is a fixed point of one more
`g`-then-`R` pass. -/
theorem round_fix (R g : ℚ → ℚ) (hR : Monotone R) (hRi : ∀ x, R (R x) = R x)
    (hb : ∀ p r, min (g p) r ≤ g r ∧ g r ≤ max (g p) r) (p : ℚ) :
    R (g (R (g p))) = R (g p) := by
  obtain ⟨h1, h2⟩ := hb p (R (g p))
  rcases le_total (g p) (R (g p)) with hyr | hyr
  · rw [min_eq_left hyr] at h1
    rw [max_eq_right hyr] at h2
    have ha := hR h1
    have hb2 := hR h2
    rw [hRi] at hb2
    exact le_antisymm hb2 ha
  · rw [min_eq_right hyr] at h1
    rw [max_eq_left hyr] at h2
    have ha := hR h1
    have hb2 := hR h2
    rw [hRi] at ha
    exact le_antisymm hb2 ha

/-- For a nonnegative `max_delta`, `_rate_limit` is exactly a clamp onto
the band `[prev - max_delta, prev + max_delta]`. -/
theorem rate_limit_some (p d : ℚ) (hd : 0 ≤ d) :
    ∀ x, rate_limit (some p) x d = clampQ (p - d) (p + d) x := by
  intro x
  unfold rate_limit clampQ
  simp only
  split_ifs with habs hpos
  · rw [gt_iff_lt, lt_abs] at habs
    have hx : p + d < x := by
      rcases habs with h | h
      · linarith
      · linarith [hpos]
    rw [min_eq_left (le_of_lt hx), max_eq_right (by linarith : p - d ≤ p + d)]
  · rw [gt_iff_lt, lt_abs] at habs
    have hx : x < p - d := by
      rcases habs with h | h
      · linarith [not_lt.mp hpos]
      · linarith
    rw [min_eq_right (by linarith : x ≤ p + d), max_eq_left (le_of_lt hx)]
    ring
  · rw [not_lt, abs_le] at habs
    rw [min_eq_right (by linarith [habs.2] : x ≤ p + d),
      max_eq_right (by linarith [habs.1] : p - d ≤ x)]

/-- One field of `Safety.enforce` (clamp, rate-limit, round) is stable
under a second pass with the same `current`. -/
theorem field_idem (m M d : ℚ) (cur : Option ℚ) (hd : 0 ≤ d)
    (R : ℚ → ℚ) (hR : Monotone R) (hRi : ∀ x, R (R x) = R x) (x : ℚ) :
    R (rate_limit cur (max m (min M (R (rate_limit cur (max m (min M x)) d)))) d)
      = R (rate_limit cur (max m (min M x)) d) := by
  cases cur with
  | none =>
      show R (rate_limit none (clampQ m M (R (rate_limit none (clampQ m M x) d))) d)
        = R (rate_limit none (clampQ m M x) d)
      simp only [rate_limit]
      exact round_fix R (fun t => clampQ m M t) hR hRi
        (fun p r => clamp1_between m M p r) x
  | some c =>
      show R (rate_limit (some c) (clampQ m M (R (rate_limit (some c) (clampQ m M x) d))) d)
        = R (rate_limit (some c) (clampQ m M x) d)
      simp only [rate_limit_some c d hd]
      exact round_fix R (fun t => clampQ (c - d) (c + d) (clampQ m M t)) hR hRi
        (fun p r => clamp2_between m M (c - d) (c + d) (by linarith) p r) x

theorem pyIntQ_idem (q : ℚ) :
    ((pyInt ((pyInt q : ℤ) : ℚ) : ℤ) : ℚ) = ((pyInt q : ℤ) : ℚ) := by
  rw [pyInt_intCast]

/-- The value produced by clamp-then-rate-limit, before rounding, obeys
both the absolute limits and the rate band whenever the prior value does. -/
theorem pre_round_envelope (m M d : ℚ) (cur : Option ℚ) (hmM : m ≤ M) (hd : 0 ≤ d)
    (hc : ∀ c, cur = some c → m ≤ c ∧ c ≤ M) (x : ℚ) :
    (m ≤ rate_limit cur (max m (min M x)) d ∧ rate_limit cur (max m (min M x)) d ≤ M) ∧
      ∀ c, cur = some c → |rate_limit cur (max m (min M x)) d - c| ≤ d := by
  cases cur with
  | none =>
      refine ⟨clampQ_mem m M hmM x, ?_⟩
      intro c hcc
      exact absurd hcc (by simp)
  | some c =>
      have hcc := hc c rfl
      rw [rate_limit_some c d hd]
      have hu : m ≤ max m (min M x) ∧ max m (min M x) ≤ M := clampQ_mem m M hmM x
      unfold clampQ
      constructor
      · constructor
        · exact le_max_of_le_right (le_min (by linarith [hcc.1]) hu.1)
        · exact max_le (by linarith [hcc.2]) (le_trans (min_le_right _ _) hu.2)
      · intro c' hc'
        have hcE : c = c' := by injection hc'
        subst hcE
        have h1 : c - d ≤ max (c - d) (min (c + d) (max m (min M x))) := le_max_left _ _
        have h2 : max (c - d) (min (c + d) (max m (min M x))) ≤ c + d :=
          max_le (by linarith) (min_le_left _ _)
        rw [abs_le]
        exact ⟨by linarith, by linarith⟩

/-- C1 (counterexample): with the configured limits, a `current` value
below the temperature minimum drags the rate-limited result outside
`[min, max]`: `enforce({supply_temp_c:14, fan_rpm:1200},
{supply_temp_c:27, fan_rpm:1200})` returns `supply_temp_c = 15 < 16`. -/
theorem enforce_escapes_limits_cex :
    (Safety.enforce refLimits ⟨some 14, some 1200⟩ ⟨27, 1200⟩).supply_temp_c <
      refLimits.temp_c.lmin := by
  norm_num [Safety.enforce, rate_limit, pyRound1, rhe, refLimits]

/-- C1 (amended): provided each prior `current` value lies inside its own
`[min, max]` band, `Safety.enforce` returns `supply_temp_c` inside
`[min, max]` up to the one-decimal rounding error `1/20` and `fan_rpm`
inside `[min, max]` up to the `int()` truncation error `1`, and each
returned field differs from its prior `current` value by at most
`max_delta_per_min` plus the same rounding error. -/
theorem enforce_within_envelope (limits : SafetyLimits) (current : Setpoints)
    (proposed : Proposal)
    (htm : limits.temp_c.lmin ≤ limits.temp_c.lmax)
    (hfm : limits.fan_rpm.lmin ≤ limits.fan_rpm.lmax)
    (htd : 0 ≤ limits.temp_c.max_delta_per_min)
    (hfd : 0 ≤ limits.fan_rpm.max_delta_per_min)
    (hct : ∀ c, current.supply_temp_c = some c →
      limits.temp_c.lmin ≤ c ∧ c ≤ limits.temp_c.lmax)
    (hcf : ∀ c, current.fan_rpm = some c →
      limits.fan_rpm.lmin ≤ c ∧ c ≤ limits.fan_rpm.lmax) :
    (limits.temp_c.lmin - 1/20 ≤ (Safety.enforce limits current proposed).supply_temp_c ∧
      (Safety.enforce limits current proposed).supply_temp_c ≤ limits.temp_c.lmax + 1/20) ∧
    (limits.fan_rpm.lmin - 1 < ((Safety.enforce limits current proposed).fan_rpm : ℚ) ∧
      ((Safety.enforce limits current proposed).fan_rpm : ℚ) < limits.fan_rpm.lmax + 1) ∧
    (∀ c, current.supply_temp_c = some c →
      |(Safety.enforce limits current proposed).supply_temp_c - c| ≤
        limits.temp_c.max_delta_per_min + 1/20) ∧
    (∀ c, current.fan_rpm = some c →
      |((Safety.enforce limits current proposed).fan_rpm : ℚ) - c| <
        limits.fan_rpm.max_delta_per_min + 1) := by
  have hpre_t := pre_round_envelope limits.temp_c.lmin limits.temp_c.lmax
    limits.temp_c.max_delta_per_min current.supply_temp_c htm htd hct
    proposed.supply_temp_c
  have hpre_f := pre_round_envelope limits.fan_rpm.lmin limits.fan_rpm.lmax
    limits.fan_rpm.max_delta_per_min current.fan_rpm hfm hfd hcf
    proposed.fan_rpm
  have hout_t : (Safety.enforce limits current proposed).supply_temp_c =
      pyRound1 (rate_limit current.supply_temp_c
        (max limits.temp_c.lmin (min limits.temp_c.lmax proposed.supply_temp_c))
        limits.temp_c.max_delta_per_min) := rfl
  have hout_f : (Safety.enforce limits current proposed).fan_rpm =
      pyInt (rate_limit current.fan_rpm
        (max limits.fan_rpm.lmin (min limits.fan_rpm.lmax proposed.fan_rpm))
        limits.fan_rpm.max_delta_per_min) := rfl
  set yt := rate_limit current.supply_temp_c
    (max limits.temp_c.lmin (min limits.temp_c.lmax proposed.supply_temp_c))
    limits.temp_c.max_delta_per_min with hyt
  set yf := rate_limit current.fan_rpm
    (max limits.fan_rpm.lmin (min limits.fan_rpm.lmax proposed.fan_rpm))
    limits.fan_rpm.max_delta_per_min with hyf
  have hround := pyRound1_sub_le yt
  rw [abs_le] at hround
  have hnear := pyInt_near yf
  refine ⟨⟨?_, ?_⟩, ⟨?_, ?_⟩, ?_, ?_⟩
  · rw [hout_t]; linarith [hpre_t.1.1, hround.1]
  · rw [hout_t]; linarith [hpre_t.1.2, hround.2]
  · rw [hout_f]; linarith [hpre_f.1.1, hnear.1]
  · rw [hout_f]; linarith [hpre_f.1.2, hnear.2]
  · intro c hc
    have hband := hpre_t.2 c hc
    rw [abs_le] at hband
    rw [hout_t, abs_le]
    constructor <;> linarith [hband.1, hband.2, hround.1, hround.2]
  · intro c hc
    have hband := hpre_f.2 c hc
    rw [abs_le] at hband
    rw [hout_f, abs_lt]
    constructor <;> linarith [hband.1, hband.2, hnear.1, hnear.2]

/-- C1 (witness): the amended envelope evaluated at the configured limits
with `current = {supply_temp_c: 20, fan_rpm: 1200}` and
`proposed = {supply_temp_c: 25, fan_rpm: 2500}`. -/
theorem enforce_within_envelope_witness :
    (refLimits.temp_c.lmin - 1/20 ≤
        (Safety.enforce refLimits ⟨some 20, some 1200⟩ ⟨25, 2500⟩).supply_temp_c ∧
      (Safety.enforce refLimits ⟨some 20, some 1200⟩ ⟨25, 2500⟩).supply_temp_c ≤
        refLimits.temp_c.lmax + 1/20) ∧
    (refLimits.fan_rpm.lmin - 1 <
        ((Safety.enforce refLimits ⟨some 20, some 1200⟩ ⟨25, 2500⟩).fan_rpm : ℚ) ∧
      ((Safety.enforce refLimits ⟨some 20, some 1200⟩ ⟨25, 2500⟩).fan_rpm : ℚ) <
        refLimits.fan_rpm.lmax + 1) ∧
    |(Safety.enforce refLimits ⟨some 20, some 1200⟩ ⟨25, 2500⟩).supply_temp_c - 20| ≤
      refLimits.temp_c.max_delta_per_min + 1/20 ∧
    |((Safety.enforce refLimits ⟨some 20, some 1200⟩ ⟨25, 2500⟩).fan_rpm : ℚ) - 1200| <
      refLimits.fan_rpm.max_delta_per_min + 1 := by
  obtain ⟨h1, h2, h3, h4⟩ :=
    enforce_within_envelope refLimits ⟨some 20, some 1200⟩ ⟨25, 2500⟩
      (by norm_num [refLimits]) (by norm_num [refLimits])
      (by norm_num [refLimits]) (by norm_num [refLimits])
      (by intro c hc; injection hc with h; subst h; norm_num [refLimits])
      (by intro c hc; injection hc with h; subst h; norm_num [refLimits])
  exact ⟨h1, h2, h3 20 rfl, h4 1200 rfl⟩

/-- C7: `Safety.enforce` is idempotent in the setpoint values: feeding the
enforced output back as the proposal, with the same `current`, reproduces
the same output (the configured `max_delta_per_min` values are
nonnegative). -/
theorem enforce_idempotent (limits : SafetyLimits) (current : Setpoints)
    (proposed : Proposal)
    (ht : 0 ≤ limits.temp_c.max_delta_per_min)
    (hf : 0 ≤ limits.fan_rpm.max_delta_per_min) :
    Safety.enforce limits current
        ⟨(Safety.enforce limits current proposed).supply_temp_c,
          ((Safety.enforce limits current proposed).fan_rpm : ℚ)⟩
      = Safety.enforce limits current proposed := by
  unfold Safety.enforce
  simp only [EnforceResult.mk.injEq, and_true]
  constructor
  · exact field_idem limits.temp_c.lmin limits.temp_c.lmax
      limits.temp_c.max_delta_per_min current.supply_temp_c ht
      pyRound1 pyRound1_mono pyRound1_idem proposed.supply_temp_c
  · have h := field_idem limits.fan_rpm.lmin limits.fan_rpm.lmax
      limits.fan_rpm.max_delta_per_min current.fan_rpm hf
      (fun q => ((pyInt q : ℤ) : ℚ)) pyInt_mono pyIntQ_idem proposed.fan_rpm
    exact_mod_cast h

/-- C7 (witness): idempotence at the configured limits,
`current = {supply_temp_c: 18, fan_rpm: 1200}`,
`proposed = {supply_temp_c: 20, fan_rpm: 1500}`. -/
theorem enforce_idempotent_witness :
    Safety.enforce refLimits ⟨some 18, some 1200⟩
        ⟨(Safety.enforce refLimits ⟨some 18, some 1200⟩ ⟨20, 1500⟩).supply_temp_c,
          ((Safety.enforce refLimits ⟨some 18, some 1200⟩ ⟨20, 1500⟩).fan_rpm : ℚ)⟩
      = Safety.enforce refLimits ⟨some 18, some 1200⟩ ⟨20, 1500⟩ :=
  enforce_idempotent refLimits ⟨some 18, some 1200⟩ ⟨20, 1500⟩
    (by norm_num [refLimits]) (by norm_num [refLimits])

theorem RollingWindow.add_size (w : RollingWindow) (v : ℚ) :
    (w.add v).size = w.size := rfl

theorem RollingWindow.add_len_le (w : RollingWindow) (v : ℚ)
    (h : w.buf.length ≤ w.size) : (w.add v).buf.length ≤ w.size := by
  unfold RollingWindow.add
  simp only [List.length_drop, List.length_append, List.length_singleton]
  omega

theorem RollingWindow.as_array_length (w : RollingWindow)
    (h : w.buf.length ≤ w.size) : w.as_array.length = w.size := by
  unfold RollingWindow.as_array
  split_ifs with h1 h2
  · exact List.length_replicate _ _
  · simp only [List.length_append, List.length_replicate]
    omega
  · have : ¬ w.buf.length < w.size := h2
    omega

theorem RollingWindow.addAll_eq (vs : List ℚ) : ∀ (N : ℕ) (b : List ℚ),
    b.length ≤ N →
    RollingWindow.addAll ⟨N, b⟩ vs =
      ⟨N, (b ++ vs).drop (b.length + vs.length - N)⟩ := by
  induction vs with
  | nil =>
      intro N b hb
      simp only [RollingWindow.addAll, List.foldl_nil, List.append_nil,
        List.length_nil]
      have : b.length + 0 - N = 0 := by omega
      rw [this, List.drop_zero]
  | cons v vs ih =>
      intro N b hb
      have hstep : RollingWindow.addAll ⟨N, b⟩ (v :: vs) =
          RollingWindow.addAll ⟨N, (b ++ [v]).drop (b.length + 1 - N)⟩ vs := rfl
      rw [hstep]
      have hlen : ((b ++ [v]).drop (b.length + 1 - N)).length ≤ N := by
        simp only [List.length_drop, List.length_append, List.length_singleton]
        omega
      rw [ih N _ hlen]
      have hd : ((b ++ [v]).drop (b.length + 1 - N) ++ vs) =
          ((b ++ [v]) ++ vs).drop (b.length + 1 - N) :=
        (List.drop_append_of_le_length (by simp)).symm
      have hlen2 : ((b ++ [v]).drop (b.length + 1 - N)).length =
          b.length + 1 - (b.length + 1 - N) := by
        simp only [List.length_drop, List.length_append, List.length_singleton]
      congr 1
      rw [hd, List.drop_drop]
      have hb2 : b ++ v :: vs = (b ++ [v]) ++ vs := by simp
      rw [hb2]
      congr 1
      rw [hlen2]
      simp only [List.length_cons]
      omega

theorem RollingWindow.addAll_of_short (N : ℕ) (vs : List ℚ) (h : vs.length ≤ N) :
    RollingWindow.addAll (RollingWindow.mk0 N) vs = ⟨N, vs⟩ := by
  unfold RollingWindow.mk0
  rw [RollingWindow.addAll_eq vs N [] (by simp)]
  simp only [List.nil_append, List.length_nil, Nat.zero_add]
  have : vs.length - N = 0 := by omega
  rw [this, List.drop_zero]

theorem FeatureStore.pushSeq_same_key (r m : String) (vs : List ℚ) :
    ∀ s : FeatureStore,
      (s.pushSeq (vs.map (fun v => (r, m, v)))).buffers r m =
        (s.buffers r m).addAll vs := by
  induction vs with
  | nil => intro s; rfl
  | cons v vs ih =>
      intro s
      have h1 : s.pushSeq ((v :: vs).map (fun v => (r, m, v))) =
          (s.push r m v).pushSeq (vs.map (fun v => (r, m, v))) := rfl
      rw [h1, ih]
      have h2 : (s.push r m v).buffers r m = (s.buffers r m).add v := by
        unfold FeatureStore.push
        simp
      rw [h2]
      rfl

theorem FeatureStore.pushSeq_inv (N : ℕ) (ops : List (String × String × ℚ)) :
    ∀ s : FeatureStore,
      (∀ r m, (s.buffers r m).size = N ∧ (s.buffers r m).buf.length ≤ N) →
      ∀ r m, ((s.pushSeq ops).buffers r m).size = N ∧
        ((s.pushSeq ops).buffers r m).buf.length ≤ N := by
  induction ops with
  | nil => intro s hs; exact hs
  | cons o ops ih =>
      intro s hs
      refine ih (s.push o.1 o.2.1 o.2.2) ?_
      intro r m
      unfold FeatureStore.push
      simp only
      split_ifs with h
      · obtain ⟨h1, h2⟩ := hs o.1 o.2.1
        refine ⟨h1, ?_⟩
        have := RollingWindow.add_len_le (s.buffers o.1 o.2.1) o.2.2 (by rw [h1]; exact h2)
        rw [h1] at this
        exact this
      · exact hs r m

/-- C6: every dense read of a feature-store window returns exactly `N`
values, for every push sequence (including none) and every
`(rack, metric)` pair. -/
theorem get_window_length (N : ℕ) (ops : List (String × String × ℚ))
    (rack metric : String) :
    (((FeatureStore.mk0 N).pushSeq ops).get_window rack metric).length = N := by
  have hinv := FeatureStore.pushSeq_inv N ops (FeatureStore.mk0 N)
    (fun r m => ⟨rfl, by simp [FeatureStore.mk0, RollingWindow.mk0]⟩) rack metric
  unfold FeatureStore.get_window
  rw [RollingWindow.as_array_length _ (by rw [hinv.1]; exact hinv.2)]
  exact hinv.1

/-- C2 (counterexample): with `N = 3` and samples `[1, 2]`, the dense read
is `[2, 1, 2]` — the padding uses the LAST sample (`arr[-1]`), not the
first: the claimed `[1, 1, 2]` is not returned. -/
theorem as_array_pads_with_first_cex :
    ((FeatureStore.mk0 3).pushSeq
        [("r1", "temp_c", 1), ("r1", "temp_c", 2)]).get_window "r1" "temp_c"
      = [2, 1, 2] ∧
    ((FeatureStore.mk0 3).pushSeq
        [("r1", "temp_c", 1), ("r1", "temp_c", 2)]).get_window "r1" "temp_c"
      ≠ [1, 1, 2] := by
  constructor <;> decide

/-- C2 (amended): for a window holding at least one and fewer than `N`
samples, the dense read returns the samples left-padded to length `N`
with the window's LAST (most recent) sample. -/
theorem get_window_left_pad (N : ℕ) (vs : List ℚ) (rack metric : String)
    (hne : vs ≠ []) (hlt : vs.length < N) :
    ((FeatureStore.mk0 N).pushSeq (vs.map (fun v => (rack, metric, v)))).get_window
        rack metric
      = List.replicate (N - vs.length) (vs.getLastD 0) ++ vs := by
  unfold FeatureStore.get_window
  rw [FeatureStore.pushSeq_same_key]
  have hbuf : (FeatureStore.mk0 N).buffers rack metric = RollingWindow.mk0 N := rfl
  rw [hbuf, RollingWindow.addAll_of_short N vs (le_of_lt hlt)]
  unfold RollingWindow.as_array
  simp only
  rw [if_neg (by simpa using hne), if_pos hlt]

/-- C2 (amended, witness): samples `[1, 2]` with `N = 3` read back as
`[2, 1, 2]`. -/
theorem get_window_left_pad_witness :
    ((FeatureStore.mk0 3).pushSeq
        ([1, 2].map (fun v => ("r1", "temp_c", v)))).get_window "r1" "temp_c"
      = List.replicate (3 - [(1 : ℚ), 2].length) ([(1 : ℚ), 2].getLastD 0) ++ [1, 2] :=
  get_window_left_pad 3 [1, 2] "r1" "temp_c" (by decide) (by decide)

theorem getD_map_lt (l : List ℚ) (f : ℚ → ℚ) (i : ℕ) (h : i < l.length) :
    (l.map f).getD i 0 = f (l.getD i 0) := by
  rw [List.getD_eq_getElem _ 0 (by simpa using h), List.getD_eq_getElem _ 0 h,
    List.getElem_map]

theorem predict_shape (horizon : ℕ) (series : List ℚ) :
    (Forecaster.predict horizon series).1.length = horizon ∧
    (Forecaster.predict horizon series).2.1 =
      (Forecaster.predict horizon series).1.map (fun p => p - 8/10) ∧
    (Forecaster.predict horizon series).2.2 =
      (Forecaster.predict horizon series).1.map (fun p => p + 8/10) :=
  ⟨by simp only [Forecaster.predict, List.length_map, List.length_range], rfl, rfl⟩

/-- C9: `predict` returns three lists of length `H`, with
`lo[i] = preds[i] - 0.8` and `hi[i] = preds[i] + 0.8`, hence
`lo[i] ≤ preds[i] ≤ hi[i]`, at every index `i < H`. -/
theorem predict_band (horizon : ℕ) (series : List ℚ) (i : ℕ) (hiH : i < horizon) :
    (Forecaster.predict horizon series).1.length = horizon ∧
    (Forecaster.predict horizon series).2.1.length = horizon ∧
    (Forecaster.predict horizon series).2.2.length = horizon ∧
    (Forecaster.predict horizon series).2.1.getD i 0 =
      (Forecaster.predict horizon series).1.getD i 0 - 8/10 ∧
    (Forecaster.predict horizon series).2.2.getD i 0 =
      (Forecaster.predict horizon series).1.getD i 0 + 8/10 ∧
    (Forecaster.predict horizon series).2.1.getD i 0 ≤
      (Forecaster.predict horizon series).1.getD i 0 ∧
    (Forecaster.predict horizon series).1.getD i 0 ≤
      (Forecaster.predict horizon series).2.2.getD i 0 := by
  obtain ⟨hp, hlo, hhi⟩ := predict_shape horizon series
  have hib : i < (Forecaster.predict horizon series).1.length := by rw [hp]; exact hiH
  have hloD := getD_map_lt (Forecaster.predict horizon series).1
    (fun p => p - 8/10) i hib
  have hhiD := getD_map_lt (Forecaster.predict horizon series).1
    (fun p => p + 8/10) i hib
  rw [← hlo] at hloD
  rw [← hhi] at hhiD
  refine ⟨hp, ?_, ?_, hloD, hhiD, ?_, ?_⟩
  · rw [hlo, List.length_map, hp]
  · rw [hhi, List.length_map, hp]
  · rw [hloD]; linarith
  · rw [hhiD]; linarith

/-- C9 (witness): the band properties at `H = 3`, `series = [20, 21]`,
index `1`. -/
theorem predict_band_witness :
    (Forecaster.predict 3 [20, 21]).1.length = 3 ∧
    (Forecaster.predict 3 [20, 21]).2.1.length = 3 ∧
    (Forecaster.predict 3 [20, 21]).2.2.length = 3 ∧
    (Forecaster.predict 3 [20, 21]).2.1.getD 1 0 =
      (Forecaster.predict 3 [20, 21]).1.getD 1 0 - 8/10 ∧
    (Forecaster.predict 3 [20, 21]).2.2.getD 1 0 =
      (Forecaster.predict 3 [20, 21]).1.getD 1 0 + 8/10 ∧
    (Forecaster.predict 3 [20, 21]).2.1.getD 1 0 ≤
      (Forecaster.predict 3 [20, 21]).1.getD 1 0 ∧
    (Forecaster.predict 3 [20, 21]).1.getD 1 0 ≤
      (Forecaster.predict 3 [20, 21]).2.2.getD 1 0 :=
  predict_band 3 [20, 21] 1 (by norm_num)

/-- C8 (counterexample): a `discover/results` message does NOT append to
the discovery history — the history (here empty) is left unchanged; the
`{ts, raw_count}` append happens on `discover/raw` instead. -/
theorem discover_results_history_cex :
    (engine0.handle_message "t0" "discover/results" resultsMsg0).discovery_history
      = [] ∧
    (engine0.handle_message "t0" "discover/results" resultsMsg0).discovery_history
      ≠ engine0.discovery_history ++ [(resultsMsg0.ts, resultsMsg0.raw.length)] := by
  have h1 : pyStartswith "discover/results" "site/" = false := by decide
  have h2 : pyStartswith "discover/results" "ctrl/" = false := by decide
  have h3 : "discover/results" = "discover/raw" ↔ False := by
    constructor
    · intro h; exact absurd h (by decide)
    · exact False.elim
  constructor
  · simp [Engine.handle_message, h1, h2, h3, engine0]
  · simp [Engine.handle_message, h1, h2, h3, engine0, resultsMsg0, BusPayload.empty]

/-- C8 (amended): it is the `discover/raw` message that appends
`{ts, raw_count}` to the discovery history; the history keeps only the
newest 50 entries (a suffix of the appended list, the new entry last). -/
theorem discover_raw_history (e : Engine) (now : String) (data : BusPayload) :
    (e.handle_message now "discover/raw" data).discovery_history =
      e.discovery_history.drop (e.discovery_history.length + 1 - 50) ++
        [(data.ts, data.raw.length)] ∧
    (e.handle_message now "discover/raw" data).discovery_history <:+
      e.discovery_history ++ [(data.ts, data.raw.length)] ∧
    ((e.handle_message now "discover/raw" data).discovery_history).length =
      min (e.discovery_history.length + 1) 50 ∧
    ((e.handle_message now "discover/raw" data).discovery_history).getLast? =
      some (data.ts, data.raw.length) := by
  have h1 : pyStartswith "discover/raw" "site/" = false := by decide
  have h2 : pyStartswith "discover/raw" "ctrl/" = false := by decide
  have hmain : (e.handle_message now "discover/raw" data).discovery_history =
      (e.discovery_history ++ [(data.ts, data.raw.length)]).drop
        ((e.discovery_history ++ [(data.ts, data.raw.length)]).length - 50) := by
    simp [Engine.handle_message, h1, h2]
  have hk : (e.discovery_history ++ [(data.ts, data.raw.length)]).length - 50 ≤
      e.discovery_history.length := by
    simp only [List.length_append, List.length_singleton]
    omega
  have hsplit : (e.handle_message now "discover/raw" data).discovery_history =
      e.discovery_history.drop (e.discovery_history.length + 1 - 50) ++
        [(data.ts, data.raw.length)] := by
    rw [hmain, List.drop_append_of_le_length hk]
    simp only [List.length_append, List.length_singleton]
  refine ⟨hsplit, ?_, ?_, ?_⟩
  · rw [hmain]
    exact List.drop_suffix _ _
  · rw [hmain]
    simp only [List.length_drop, List.length_append, List.length_singleton]
    omega
  · rw [hsplit, List.getLast?_append_of_ne_nil _ (by simp)]
    rfl

/-- C5 (counterexample): a receipt whose `(device_id, ts)` exactly match a
stored Action leaves that Action untouched — its status stays `sent`, it
is never marked `applied`. -/
theorem receipt_match_no_applied_cex :
    (receiptCexEngine.handle_message "T1" "ctrl/dev1/receipt" receiptMsg0).db.actions
      = [actionRow0] ∧
    actionRow0.device_id = receiptMsg0.device_id.getD "" ∧
    actionRow0.ts = receiptMsg0.ts.getD "" ∧
    actionRow0.status = "sent" ∧
    ("sent" : String) ≠ "applied" := by
  have h1 : pyStartswith "ctrl/dev1/receipt" "site/" = false := by decide
  have h2 : pyStartswith "ctrl/dev1/receipt" "ctrl/" = true := by decide
  have h3 : pyEndswith "ctrl/dev1/receipt" "/receipt" = true := by decide
  refine ⟨?_, by decide, by decide, by decide, by decide⟩
  simp [Engine.handle_message, h1, h2, h3, DBState.record_receipt,
    receiptCexEngine, engine0]

/-- C5 (amended): on any receipt-topic message the engine appends the
receipt verbatim to the `receipts` table and performs NO other change: no
Action status transition in any case (even on an exact `(device_id, ts)`
match), no other table touched, nothing published. -/
theorem receipt_no_transition (e : Engine) (now topic : String) (data : BusPayload)
    (h1 : pyStartswith topic "site/" = false)
    (h2 : pyStartswith topic "ctrl/" = true)
    (h3 : pyEndswith topic "/receipt" = true) :
    (e.handle_message now topic data).db.receipts =
      e.db.receipts ++ [⟨data.ts, data.device_id, data.status, data.applied,
        data.latency_ms, data.notes⟩] ∧
    (e.handle_message now topic data).db.actions = e.db.actions ∧
    (e.handle_message now topic data).db.telemetry = e.db.telemetry ∧
    (e.handle_message now topic data).db.forecasts = e.db.forecasts ∧
    (e.handle_message now topic data).db.anomalies = e.db.anomalies ∧
    (e.handle_message now topic data).published = e.published := by
  have hmsg : e.handle_message now topic data =
      { e with db := e.db.record_receipt ⟨data.ts, data.device_id, data.status, data.applied, data.latency_ms, data.notes⟩ } := by
    unfold Engine.handle_message
    rw [h1, h2, h3]
    simp
  rw [hmsg]
  exact ⟨rfl, rfl, rfl, rfl, rfl, rfl⟩

/-- C5 (amended, witness): the receipt-handling frame at the concrete
topic `ctrl/dev1/receipt` on `receiptCexEngine`. -/
theorem receipt_no_transition_witness :
    (receiptCexEngine.handle_message "T1" "ctrl/dev1/receipt" receiptMsg0).db.receipts =
      receiptCexEngine.db.receipts ++
        [⟨receiptMsg0.ts, receiptMsg0.device_id, receiptMsg0.status,
          receiptMsg0.applied, receiptMsg0.latency_ms, receiptMsg0.notes⟩] ∧
    (receiptCexEngine.handle_message "T1" "ctrl/dev1/receipt" receiptMsg0).db.actions =
      receiptCexEngine.db.actions ∧
    (receiptCexEngine.handle_message "T1" "ctrl/dev1/receipt" receiptMsg0).db.telemetry =
      receiptCexEngine.db.telemetry ∧
    (receiptCexEngine.handle_message "T1" "ctrl/dev1/receipt" receiptMsg0).db.forecasts =
      receiptCexEngine.db.forecasts ∧
    (receiptCexEngine.handle_message "T1" "ctrl/dev1/receipt" receiptMsg0).db.anomalies =
      receiptCexEngine.db.anomalies ∧
    (receiptCexEngine.handle_message "T1" "ctrl/dev1/receipt" receiptMsg0).published =
      receiptCexEngine.published :=
  receipt_no_transition receiptCexEngine "T1" "ctrl/dev1/receipt" receiptMsg0
    (by decide) (by decide) (by decide)

/-- C10: `approve_action` returns `False` exactly when no Action with the
given id exists (the API surfaces this as 404); when one exists — whatever
its current status — the call publishes the stored `cmd_json` to
`ctrl/<device_id>/set`, sets that Action's status to `sent`, and a repeated
call on the same id succeeds again. -/
theorem approve_action_spec (e : Engine) (action_id : ℕ) :
    ((e.approve_action action_id).1 = false ↔
      ∀ a ∈ e.db.actions, ¬ a.id = action_id) ∧
    (∀ a, e.db.actions.find? (fun b => b.id = action_id) = some a →
      (e.approve_action action_id).2.published =
        e.published ++ [("ctrl/" ++ a.cmd_json.device_id ++ "/set", a.cmd_json)] ∧
      (e.approve_action action_id).2.db.actions =
        e.db.actions.map
          (fun b => if b.id = action_id then { b with status := "sent" } else b) ∧
      ((e.approve_action action_id).2.approve_action action_id).1 = true) := by
  constructor
  · cases hf : e.db.actions.find? (fun b => b.id = action_id) with
    | none =>
        unfold Engine.approve_action
        rw [hf]
        have hnone := List.find?_eq_none.mp hf
        constructor
        · intro _ a ha
          simpa using hnone a ha
        · intro _
          rfl
    | some a =>
        unfold Engine.approve_action
        rw [hf]
        constructor
        · intro h
          exact absurd h (by simp)
        · intro h
          have hmem := List.mem_of_find?_eq_some hf
          have hp := List.find?_some hf
          have ha : a.id = action_id := by simpa using hp
          exact absurd ha (h a hmem)
  · intro a hf
    have hstep : e.approve_action action_id =
        (true,
          { e with
              published := e.published ++
                [("ctrl/" ++ a.cmd_json.device_id ++ "/set", a.cmd_json)]
              db := e.db.update_action_status action_id "sent" }) := by
      unfold Engine.approve_action
      rw [hf]
    refine ⟨?_, ?_, ?_⟩
    · rw [hstep]
    · rw [hstep]
      rfl
    · have hsecond :
          ((e.approve_action action_id).2.db.actions.find?
            (fun b => b.id = action_id)) =
          some (if a.id = action_id then { a with status := "sent" } else a) := by
        have hact : (e.approve_action action_id).2.db.actions =
            e.db.actions.map
              (fun b => if b.id = action_id then { b with status := "sent" } else b) := by
          rw [hstep]
          rfl
        rw [hact, List.find?_map]
        have hcomp : ((fun b : ActionRow => decide (b.id = action_id)) ∘
            (fun b : ActionRow =>
              if b.id = action_id then { b with status := "sent" } else b)) =
            (fun b : ActionRow => decide (b.id = action_id)) := by
          funext b
          by_cases hb : b.id = action_id <;> simp [hb]
        rw [hcomp, hf]
        rfl
      set e2 := (e.approve_action action_id).2 with he2
      unfold Engine.approve_action
      rw [hsecond]

/-- C10 (witness): on `receiptCexEngine` (one stored action, id 1), the
call succeeds, publishes the stored payload to the device topic, and a
repeated call succeeds again. -/
theorem approve_action_spec_witness :
    (receiptCexEngine.approve_action 1).1 = true ∧
    (receiptCexEngine.approve_action 1).2.published =
      receiptCexEngine.published ++
        [("ctrl/" ++ actionRow0.cmd_json.device_id ++ "/set",
          actionRow0.cmd_json)] ∧
    ((receiptCexEngine.approve_action 1).2.approve_action 1).1 = true := by
  have h := approve_action_spec receiptCexEngine 1
  have hf : receiptCexEngine.db.actions.find? (fun b => b.id = 1) =
      some actionRow0 := by decide
  obtain ⟨hpub, -, hsecond⟩ := h.2 actionRow0 hf
  refine ⟨?_, hpub, hsecond⟩
  cases hres : (receiptCexEngine.approve_action 1).1 with
  | true => rfl
  | false =>
      have hall := h.1.mp hres
      have hmem : actionRow0 ∈ receiptCexEngine.db.actions := by decide
      exact absurd rfl (hall actionRow0 hmem)

theorem maybe_act_policy (e : Engine) (now rack : String) (metrics : TeleMetrics) :
    (e.maybe_act now rack metrics).policy = e.policy := by
  unfold Engine.maybe_act
  dsimp only
  split
  · rfl
  · split <;> rfl

theorem maybe_act_horizon (e : Engine) (now rack : String) (metrics : TeleMetrics) :
    (e.maybe_act now rack metrics).horizon = e.horizon := by
  unfold Engine.maybe_act
  dsimp only
  split
  · rfl
  · split <;> rfl

theorem maybe_act_threshold (e : Engine) (now rack : String) (metrics : TeleMetrics) :
    (e.maybe_act now rack metrics).threshold = e.threshold := by
  unfold Engine.maybe_act
  dsimp only
  split
  · rfl
  · split <;> rfl

theorem maybe_act_store (e : Engine) (now rack : String) (metrics : TeleMetrics) :
    (e.maybe_act now rack metrics).feature_store = e.feature_store := by
  unfold Engine.maybe_act
  dsimp only
  split
  · rfl
  · split <;> rfl

theorem maybe_act_tiles (e : Engine) (now rack : String) (metrics : TeleMetrics) :
    (e.maybe_act now rack metrics).latest_tiles = e.latest_tiles := by
  unfold Engine.maybe_act
  dsimp only
  split
  · rfl
  · split <;> rfl

theorem maybe_act_forecasts_len (e : Engine) (now rack : String)
    (metrics : TeleMetrics) :
    (e.maybe_act now rack metrics).db.forecasts.length =
      e.db.forecasts.length + 1 := by
  unfold Engine.maybe_act
  dsimp only
  split
  · simp
  · split <;> simp [DBState.record_action, DBState.update_action_status]

theorem maybe_act_anomalies_len (e : Engine) (now rack : String)
    (metrics : TeleMetrics) :
    (e.maybe_act now rack metrics).db.anomalies.length =
      e.db.anomalies.length + 1 := by
  unfold Engine.maybe_act
  dsimp only
  split
  · simp
  · split <;> simp [DBState.record_action, DBState.update_action_status]

theorem maybe_act_actions (e : Engine) (now rack : String) (metrics : TeleMetrics)
    (h : (triggers_for e rack metrics).isEmpty = false) :
    (e.maybe_act now rack metrics).db.actions.length = e.db.actions.length + 1 ∧
    ((e.maybe_act now rack metrics).db.actions.getLast?).map ActionRow.reason =
      some (pick_reason (triggers_for e rack metrics)) := by
  unfold triggers_for at h
  unfold Engine.maybe_act
  dsimp only
  rw [if_neg (by rw [h]; exact Bool.false_ne_true)]
  split <;>
  · constructor
    · simp [DBState.record_action, DBState.update_action_status]
    · simp only [DBState.record_action, DBState.update_action_status,
        List.map_append]
      rw [List.getLast?_append_of_ne_nil _ (by simp)]
      simp [triggers_for]

theorem handle_telemetry_policy (e : Engine) (now : String) (data : BusPayload) :
    (e.handle_telemetry now data).policy = e.policy := by
  unfold Engine.handle_telemetry
  dsimp only
  cases data.device_id <;> cases data.metrics.temp_c <;>
    simp only [maybe_act_policy] <;> (try split_ifs) <;> rfl

theorem handle_telemetry_horizon (e : Engine) (now : String) (data : BusPayload) :
    (e.handle_telemetry now data).horizon = e.horizon := by
  unfold Engine.handle_telemetry
  dsimp only
  cases data.device_id <;> cases data.metrics.temp_c <;>
    simp only [maybe_act_horizon] <;> (try split_ifs) <;> rfl

theorem handle_telemetry_threshold (e : Engine) (now : String) (data : BusPayload) :
    (e.handle_telemetry now data).threshold = e.threshold := by
  unfold Engine.handle_telemetry
  dsimp only
  cases data.device_id <;> cases data.metrics.temp_c <;>
    simp only [maybe_act_threshold] <;> (try split_ifs) <;> rfl

theorem handle_telemetry_store_null (e : Engine) (now : String) (data : BusPayload)
    (h : data.metrics.temp_c = none) :
    (e.handle_telemetry now data).feature_store = e.feature_store := by
  unfold Engine.handle_telemetry
  dsimp only
  rw [h]
  cases data.device_id <;> simp only [maybe_act_store] <;> (try split_ifs) <;> rfl

theorem handle_telemetry_store_push (e : Engine) (now : String) (data : BusPayload)
    (t : ℚ) (h : data.metrics.temp_c = some t) :
    (e.handle_telemetry now data).feature_store =
      e.feature_store.push (data.rack.getD "unknown") "temp_c" t := by
  unfold Engine.handle_telemetry
  dsimp only
  rw [h]
  cases data.device_id <;> simp only [maybe_act_store] <;> (try split_ifs) <;> rfl

theorem handle_telemetry_tiles (e : Engine) (now : String) (data : BusPayload) :
    (e.handle_telemetry now data).latest_tiles (data.rack.getD "unknown") =
      some (data.ts, data.metrics) := by
  unfold Engine.handle_telemetry
  dsimp only
  cases data.device_id <;> cases data.metrics.temp_c <;>
    simp only [maybe_act_tiles] <;> (try split_ifs) <;> simp

theorem handle_telemetry_forecasts_len (e : Engine) (now : String)
    (data : BusPayload) :
    (e.handle_telemetry now data).db.forecasts.length =
      e.db.forecasts.length + 1 := by
  unfold Engine.handle_telemetry
  dsimp only
  cases data.device_id <;> cases data.metrics.temp_c <;>
    simp only [maybe_act_forecasts_len] <;> (try split_ifs) <;> rfl

theorem handle_telemetry_anomalies_len (e : Engine) (now : String)
    (data : BusPayload) :
    (e.handle_telemetry now data).db.anomalies.length =
      e.db.anomalies.length + 1 := by
  unfold Engine.handle_telemetry
  dsimp only
  cases data.device_id <;> cases data.metrics.temp_c <;>
    simp only [maybe_act_anomalies_len] <;> (try split_ifs) <;> rfl

theorem handle_telemetry_last_ingest (e : Engine) (now : String)
    (data : BusPayload) :
    (e.handle_telemetry now data).last_ingest_ts = data.ts := rfl

/-- C4 (amended): on a telemetry point whose `temp_c` is null, the engine
pushes nothing into the feature store and still updates the latest tiles
with the point's `ts` — but it DOES persist one forecast row and one
anomaly row for the cycle (an Action may also still fire on the stale
window or the other metrics). -/
theorem telemetry_null_temp (e : Engine) (now : String) (data : BusPayload)
    (h : data.metrics.temp_c = none) :
    (e.handle_telemetry now data).feature_store = e.feature_store ∧
    (e.handle_telemetry now data).latest_tiles (data.rack.getD "unknown") =
      some (data.ts, data.metrics) ∧
    (e.handle_telemetry now data).db.forecasts.length =
      e.db.forecasts.length + 1 ∧
    (e.handle_telemetry now data).db.anomalies.length =
      e.db.anomalies.length + 1 ∧
    (e.handle_telemetry now data).last_ingest_ts = data.ts :=
  ⟨handle_telemetry_store_null e now data h,
    handle_telemetry_tiles e now data,
    handle_telemetry_forecasts_len e now data,
    handle_telemetry_anomalies_len e now data,
    handle_telemetry_last_ingest e now data⟩

theorem compute_triggers_subset (policy : Policy) (window preds : List ℚ)
    (alarm : Bool) (metrics : TeleMetrics) :
    ∀ x ∈ compute_triggers policy window preds alarm metrics,
      x ∈ (["vae", "temp_limit", "forecast", "temp_trend", "power_spike",
        "humidity"] : List String) := by
  intro x hx
  unfold compute_triggers at hx
  simp only [List.mem_append] at hx
  rcases hx with ((((hx | hx) | hx) | hx) | hx) | hx <;>
    · repeat' split at hx
      all_goals simp_all

theorem pick_eq_spec (trs : List String) (hne : trs ≠ [])
    (hsub : ∀ x ∈ trs, x ∈ (["vae", "temp_limit", "forecast", "temp_trend",
      "power_spike", "humidity"] : List String)) :
    pick_reason trs = spec_priority_first trs := by
  unfold pick_reason spec_priority_first
  split_ifs with h1 h2 h3 h4 h5 h6 <;> try rfl
  obtain ⟨x, hx⟩ := List.exists_mem_of_ne_nil trs hne
  have hmem := hsub x hx
  simp only [List.mem_cons, List.not_mem_nil, or_false] at hmem
  rcases hmem with rfl | rfl | rfl | rfl | rfl | rfl <;>
    first
    | exact absurd hx h1
    | exact absurd hx h2
    | exact absurd hx h3
    | exact absurd hx h4
    | exact absurd hx h5
    | exact absurd hx h6

/-- C3 (amended): whenever the trigger list of a telemetry cycle is
non-empty, the produced Action's `reason` is the first firing trigger in
the amended priority order temperature_limit, temperature_trend,
power_spike, humidity_out_of_range, anomaly, forecast_risk_high — in
particular `anomaly` wins over `forecast_risk_high`. -/
theorem action_reason_priority (e : Engine) (now rack : String)
    (metrics : TeleMetrics)
    (h : (triggers_for e rack metrics).isEmpty = false) :
    ((e.maybe_act now rack metrics).db.actions.getLast?).map ActionRow.reason =
      some (spec_priority_first (triggers_for e rack metrics)) := by
  have hact := (maybe_act_actions e now rack metrics h).2
  rw [hact]
  have hne : triggers_for e rack metrics ≠ [] := by
    intro hc
    rw [hc] at h
    simp at h
  rw [pick_eq_spec (triggers_for e rack metrics) hne]
  intro x hx
  exact compute_triggers_subset e.policy _ _ _ _ x hx

/-- C3 (amended, witness): on the fresh engine the all-zero window alarms
(`score = 1 ≥ 0.97`), so the trigger list is non-empty and the emitted
reason matches the amended priority selection. -/
theorem action_reason_priority_witness :
    ((engine0.maybe_act "T0" "r1" ⟨none, none, none, none⟩).db.actions.getLast?).map
        ActionRow.reason =
      some (spec_priority_first (triggers_for engine0 "r1" ⟨none, none, none, none⟩)) :=
  action_reason_priority engine0 "T0" "r1" ⟨none, none, none, none⟩ (by
    have hrep : (List.replicate 6 (0:ℚ)).getLast?.getD 0 = 0 := by decide
    norm_num [triggers_for, compute_triggers, VAEAnomaly.score, Forecaster.predict,
      FeatureStore.get_window, FeatureStore.mk0, RollingWindow.mk0,
      RollingWindow.as_array, engine0, refPolicy, refLimits, hrep])

theorem triggers_for_congr (e e' : Engine) (rack : String) (metrics : TeleMetrics)
    (hp : e'.policy = e.policy) (hs : e'.feature_store = e.feature_store)
    (hh : e'.horizon = e.horizon) (ht : e'.threshold = e.threshold) :
    triggers_for e' rack metrics = triggers_for e rack metrics := by
  unfold triggers_for
  rw [hp, hs, hh, ht]

theorem maybe_act_actions_of_eq (e : Engine) (now rack : String)
    (metrics : TeleMetrics) (trs : List String)
    (htrs : triggers_for e rack metrics = trs) (h : trs.isEmpty = false) :
    (e.maybe_act now rack metrics).db.actions.length = e.db.actions.length + 1 ∧
    ((e.maybe_act now rack metrics).db.actions.getLast?).map ActionRow.reason =
      some (pick_reason trs) := by
  subst htrs
  exact maybe_act_actions e now rack metrics h

theorem handle_telemetry_null_actions (e : Engine) (now : String)
    (data : BusPayload) (hnull : data.metrics.temp_c = none)
    (htrig : (triggers_for e (data.rack.getD "unknown") data.metrics).isEmpty
      = false) :
    (e.handle_telemetry now data).db.actions.length = e.db.actions.length + 1 ∧
    ((e.handle_telemetry now data).db.actions.getLast?).map ActionRow.reason =
      some (pick_reason (triggers_for e (data.rack.getD "unknown")
        data.metrics)) := by
  unfold Engine.handle_telemetry
  dsimp only
  rw [hnull]
  cases data.device_id <;> dsimp only <;> (try split_ifs) <;>
    (refine maybe_act_actions_of_eq _ now (data.rack.getD "unknown")
      data.metrics _ ?_ htrig;
     exact triggers_for_congr e _ (data.rack.getD "unknown") data.metrics
       rfl rfl rfl rfl)

theorem engine1_policy : engine1.policy = refPolicy := by
  have h := handle_telemetry_policy engine0 "T1" teleMsg1
  exact h

theorem engine1_horizon : engine1.horizon = 8 := by
  have h := handle_telemetry_horizon engine0 "T1" teleMsg1
  exact h

theorem engine1_threshold : engine1.threshold = 97/100 := by
  have h := handle_telemetry_threshold engine0 "T1" teleMsg1
  exact h

theorem engine1_store :
    engine1.feature_store = engine0.feature_store.push "r1" "temp_c" 28 := by
  have h := handle_telemetry_store_push engine0 "T1" teleMsg1 28 rfl
  exact h

theorem engine1_window :
    engine1.feature_store.get_window "r1" "temp_c" = [28, 28, 28, 28, 28, 28] := by
  rw [engine1_store]
  decide

theorem engine1_triggers :
    triggers_for engine1 "r1" teleMsg2.metrics = ["vae", "forecast"] := by
  unfold triggers_for
  rw [engine1_policy, engine1_horizon, engine1_threshold, engine1_window]
  norm_num [compute_triggers, VAEAnomaly.score, Forecaster.predict,
    refPolicy, refLimits, teleMsg2, BusPayload.empty]

/-- C3 (counterexample): handling the dropout point on `engine1` fires
exactly the `forecast` and `vae` (anomaly) triggers — no higher-priority
trigger — yet the produced Action's `reason` is `anomaly`, not the
claimed `forecast_risk_high`. -/
theorem reason_prefers_anomaly_cex :
    triggers_for engine1 "r1" teleMsg2.metrics = ["vae", "forecast"] ∧
    (engine2.db.actions.getLast?).map ActionRow.reason = some "anomaly" ∧
    ("anomaly" : String) ≠ "forecast_risk_high" := by
  have htrig : (triggers_for engine1 (teleMsg2.rack.getD "unknown")
      teleMsg2.metrics).isEmpty = false := by
    show (triggers_for engine1 "r1" teleMsg2.metrics).isEmpty = false
    rw [engine1_triggers]
    rfl
  have hhandle := handle_telemetry_null_actions engine1 "T2" teleMsg2 rfl htrig
  refine ⟨engine1_triggers, ?_, by decide⟩
  have hlast := hhandle.2
  have hcast : ((engine1.handle_telemetry "T2" teleMsg2).db.actions.getLast?).map
      ActionRow.reason = (engine2.db.actions.getLast?).map ActionRow.reason := rfl
  rw [← hcast, hlast]
  have : pick_reason (triggers_for engine1 (teleMsg2.rack.getD "unknown")
      teleMsg2.metrics) = "anomaly" := by
    show pick_reason (triggers_for engine1 "r1" teleMsg2.metrics) = "anomaly"
    rw [engine1_triggers]
    decide
  rw [this]

/-- C4 (counterexample): handling the null-`temp_c` point `teleMsg2` on
`engine1` pushes nothing, yet persists one forecast row AND one anomaly
row for the cycle and also emits an Action (the stale all-28 window keeps
the forecast and anomaly triggers firing). -/
theorem sensor_dropout_persists_cex :
    teleMsg2.metrics.temp_c = none ∧
    engine2.feature_store = engine1.feature_store ∧
    engine2.db.forecasts.length = engine1.db.forecasts.length + 1 ∧
    engine2.db.anomalies.length = engine1.db.anomalies.length + 1 ∧
    engine2.db.actions.length = engine1.db.actions.length + 1 := by
  have htrig : (triggers_for engine1 (teleMsg2.rack.getD "unknown")
      teleMsg2.metrics).isEmpty = false := by
    show (triggers_for engine1 "r1" teleMsg2.metrics).isEmpty = false
    rw [engine1_triggers]
    rfl
  exact ⟨rfl,
    handle_telemetry_store_null engine1 "T2" teleMsg2 rfl,
    handle_telemetry_forecasts_len engine1 "T2" teleMsg2,
    handle_telemetry_anomalies_len engine1 "T2" teleMsg2,
    (handle_telemetry_null_actions engine1 "T2" teleMsg2 rfl htrig).1⟩

/-- C4 (amended, witness): the dropout frame conditions evaluated on the
fresh engine with `teleMsg2`. -/
theorem telemetry_null_temp_witness :
    (engine0.handle_telemetry "T2" teleMsg2).feature_store =
      engine0.feature_store ∧
    (engine0.handle_telemetry "T2" teleMsg2).latest_tiles
        (teleMsg2.rack.getD "unknown") =
      some (teleMsg2.ts, teleMsg2.metrics) ∧
    (engine0.handle_telemetry "T2" teleMsg2).db.forecasts.length =
      engine0.db.forecasts.length + 1 ∧
    (engine0.handle_telemetry "T2" teleMsg2).db.anomalies.length =
      engine0.db.anomalies.length + 1 ∧
    (engine0.handle_telemetry "T2" teleMsg2).last_ingest_ts = teleMsg2.ts :=
  telemetry_null_temp engine0 "T2" teleMsg2 rfl

end HcaiMini

